import Mathlib

/-!
Verification of the Instagram DM auto-reply bot's message-processing core.

The development shallowly embeds the JavaScript sources:
* `src/utils/messageParser.js` (`parseWebhookEvent`, the dual-format version
  handling both the older `entry[0].messaging[0]` shape and the newer
  `entry[0].changes[0].value` shape, including the `message_edit` sub-variant),
* `src/routes/webhook.js` (`secureCompare`, `handleVerification`,
  `shouldReplyToMessage`, `processWebhookEvent`),
* `src/services/instagramService.js` (`sendMessage` with its bounded retry loop).

JavaScript values reachable by the parser are modelled by `JValue`; property
access, truthiness, `Array.isArray`, strict equality against a string literal,
and `parseInt` are modelled by total functions that agree with the JavaScript
semantics on every path the embedded code takes (the few places where real JS
would throw a `TypeError` — property access on `null`/`undefined` — are inside
the functions' `try` blocks whose `catch` returns the same `null` result the
total model produces, as noted at each definition).
-/

/-- Model of the JavaScript values a webhook payload can contain.
`null` also stands for `undefined`: the embedded code never distinguishes them
(both are falsy, compare unequal to every string, and yield `undefined` on
property access). `nan` is the result of a failed `parseInt`. -/
inductive JValue where
  | null
  | bool (b : Bool)
  | num (n : Int)
  | nan
  | str (s : String)
  | arr (elems : List JValue)
  | obj (fields : List (String × JValue))

namespace JValue

/-- JavaScript truthiness: `null`/`undefined`, `false`, `0`, `NaN` and `""`
are falsy; every array and object is truthy. -/
def truthy : JValue → Bool
  | .null => false
  | .bool b => b
  | .num n => n != 0
  | .nan => false
  | .str s => !(s == "")
  | .arr _ => true
  | .obj _ => true

/-- Property access `v.k`. On an object it is the first binding of the key
(`undefined`, i.e. `.null`, when the key is missing); on every non-object it
is `.null` — for primitives that is JavaScript's `undefined`, and for
`null`/`undefined` receivers real JS throws a `TypeError`, which every
embedded call site converts back to the same invalid result via its
enclosing `try/catch` (or is guarded by `?.`). -/
def get (v : JValue) (k : String) : JValue :=
  match v with
  | .obj fields => (fields.lookup k).getD .null
  | _ => .null

/-- `Array.isArray(v)`. -/
def isArray : JValue → Bool
  | .arr _ => true
  | _ => false

/-- The element list of an array value (`[]` for non-arrays; only used behind
`isArray` guards). -/
def items : JValue → List JValue
  | .arr xs => xs
  | _ => []

/-- Strict equality `v === s` against a string literal: true exactly when `v`
is that string. -/
def eqStr (v : JValue) (s : String) : Bool :=
  match v with
  | .str t => t == s
  | _ => false

/-- Strict equality `v === null` (the embedded code only ever compares the
absent-marker with `===`). -/
def isNull : JValue → Bool
  | .null => true
  | _ => false

/-- Numeric value of a decimal digit sequence (most significant first). -/
def digitsToNat (ds : List Char) : Nat :=
  ds.foldl (fun acc c => acc * 10 + (c.toNat - 48)) 0

/-- `parseInt(v)` as used on the newer shape's timestamp: integers pass
through, a string is parsed by skipping leading whitespace, reading an
optional sign and then the leading decimal-digit run (`NaN` when there is
none), and every other value is `NaN`. -/
def jsParseInt : JValue → JValue
  | .num n => .num n
  | .str s =>
      let t := s.data.dropWhile Char.isWhitespace
      let signAndDigits : Int × List Char :=
        match t with
        | '-' :: rest => (-1, rest)
        | '+' :: rest => (1, rest)
        | rest => (1, rest)
      let lead := signAndDigits.2.takeWhile Char.isDigit
      if lead.isEmpty then .nan
      else .num (signAndDigits.1 * (digitsToNat lead : Int))
  | _ => .nan

end JValue

/-- The canonical parsed-message record produced by `parseWebhookEvent`.
Fields hold the raw JavaScript values the parser stores (the absent-marker
`null` is `JValue.null`); `hasAttachments` is the boolean the parser computes. -/
structure ParsedMessage where
  senderId : JValue
  messageText : JValue
  hasAttachments : Bool
  timestamp : JValue
  messageId : JValue

/-- First phase of `parseWebhookEvent` (src/utils/messageParser.js): locate the
matching envelope shape and extract the `(message, senderId, timestamp)` triple;
`none` is every early `return null` (missing/empty entry list, neither format
matching, a non-message messaging event, or a non-`messages` change). -/
def extractEvent (payload : JValue) : Option (JValue × JValue × JValue) :=
  if !payload.truthy || !(payload.get "entry").truthy
      || !(payload.get "entry").isArray || (payload.get "entry").items.length == 0 then
    none
  else
    let entry := (payload.get "entry").items.headD .null
    let messaging := entry.get "messaging"
    if messaging.truthy && messaging.isArray && decide (0 < messaging.items.length) then
      let messagingEvent := messaging.items.headD .null
      if (messagingEvent.get "message").truthy then
        some (messagingEvent.get "message",
              (messagingEvent.get "sender").get "id",
              messagingEvent.get "timestamp")
      else if (messagingEvent.get "message_edit").truthy then
        let me := messagingEvent.get "message_edit"
        some (.obj [("mid", me.get "mid"), ("text", me.get "text"),
                    ("attachments", me.get "attachments")],
              (messagingEvent.get "sender").get "id",
              messagingEvent.get "timestamp")
      else
        none
    else
      let changes := entry.get "changes"
      if changes.truthy && changes.isArray && decide (0 < changes.items.length) then
        let change := changes.items.headD .null
        if !(change.get "field").eqStr "messages" || !(change.get "value").truthy then
          none
        else
          let value := change.get "value"
          some (value.get "message",
                (value.get "sender").get "id",
                if (value.get "timestamp").truthy
                then JValue.jsParseInt (value.get "timestamp") else .null)
      else
        none

/-- Second phase of `parseWebhookEvent`: validate the extracted data
(`!senderId || !message || !message.mid` rejects) and build the record
(`messageText = message.text || null`; `hasAttachments` iff `message.attachments`
is a non-empty array). -/
def finishParse (message senderId timestamp : JValue) : Option ParsedMessage :=
  if !senderId.truthy || !message.truthy || !(message.get "mid").truthy then
    none
  else
    some {
      senderId := senderId
      messageText := if (message.get "text").truthy then message.get "text" else .null
      hasAttachments := (message.get "attachments").isArray
        && decide (0 < (message.get "attachments").items.length)
      timestamp := timestamp
      messageId := message.get "mid" }

/-- `parseWebhookEvent(payload)` from src/utils/messageParser.js: returns the
parsed message or `none` (the JavaScript `null`) for every invalid, malformed
or non-message payload; its internal `try/catch` likewise resolves to `null`. -/
def parseWebhookEvent (payload : JValue) : Option ParsedMessage :=
  match extractEvent payload with
  | none => none
  | some (message, senderId, timestamp) => finishParse message senderId timestamp

/-- The four rejection rules of `shouldReplyToMessage` (src/routes/webhook.js),
in the order the code tests them; each corresponds to one distinct debug-log
branch. -/
inductive RejectReason where
  | nullMessage
  | noText
  | attachments
  | echo
deriving Repr, DecidableEq

/-- The rejection rule a given input violates, read off declaratively (used to
state the fixed-priority short-circuit property, not taken from control flow). -/
def ruleFails (r : RejectReason) (pm? : Option ParsedMessage) (botInstagramId : String) : Bool :=
  match r, pm? with
  | .nullMessage, none => true
  | _, none => false
  | .nullMessage, some _ => false
  | .noText, some pm => pm.messageText.isNull
  | .attachments, some pm => pm.hasAttachments
  | .echo, some pm => pm.senderId.eqStr botInstagramId

/-- The priority order in which `shouldReplyToMessage` tests its rules. -/
def rejectOrder : List RejectReason :=
  [.nullMessage, .noText, .attachments, .echo]

/-- `shouldReplyToMessage` with the rule behind each early `return false` made
explicit (mirroring the function's four debug-log branches): `none` means every
check passed. -/
def shouldReplyReason (pm? : Option ParsedMessage) (botInstagramId : String) :
    Option RejectReason :=
  match pm? with
  | none => some .nullMessage
  | some pm =>
    if pm.messageText.isNull then some .noText
    else if pm.hasAttachments == true then some .attachments
    else if pm.senderId.eqStr botInstagramId then some .echo
    else none

/-- `shouldReplyToMessage(parsedMessage, botInstagramId)` from
src/routes/webhook.js: reject `null` parses, absent text, attachments, and
self-sent messages, in that order; accept otherwise. -/
def shouldReplyToMessage (pm? : Option ParsedMessage) (botInstagramId : String) : Bool :=
  match pm? with
  | none => false
  | some pm =>
    if pm.messageText.isNull then false
    else if pm.hasAttachments == true then false
    else if pm.senderId.eqStr botInstagramId then false
    else true

/-- `secureCompare(a, b)` from src/routes/webhook.js. Non-strings are rejected
by the `typeof` guard; strings are compared as their character sequences padded
with NUL to equal length (`Buffer.alloc` + `copy` model: the byte encoding is
modelled by the character sequence, an injective encoding, so the equality
outcome is unchanged), conjoined with the original lengths agreeing.
`crypto.timingSafeEqual` never throws here since both buffers are padded to the
same length, so the `catch` branch is dead. -/
def secureCompare (a b : Option String) : Bool :=
  match a, b with
  | some a, some b =>
    let bufferA := a.data
    let bufferB := b.data
    let maxLength := max bufferA.length bufferB.length
    let paddedA := bufferA ++ List.replicate (maxLength - bufferA.length) (Char.ofNat 0)
    let paddedB := bufferB ++ List.replicate (maxLength - bufferB.length) (Char.ofNat 0)
    (paddedA == paddedB) && (bufferA.length == bufferB.length)
  | _, _ => false

/-- The two responses `handleVerification` can produce: `challenge c` is
`res.status(200).send(challenge)`, `forbidden` is `res.sendStatus(403)`. -/
inductive VerifyResponse where
  | challenge (c : Option String)
  | forbidden
deriving Repr, DecidableEq

/-- `handleVerification(req, res)` from src/routes/webhook.js, with the three
`hub.*` query parameters (absent = `none`) and the configured `VERIFY_TOKEN`
passed explicitly: require `mode === 'subscribe'`, then the token to pass
`secureCompare` against the secret, then echo the challenge with status 200. -/
def handleVerification (mode token challenge verifyToken : Option String) :
    VerifyResponse :=
  if mode != some "subscribe" then .forbidden
  else if !secureCompare token verifyToken then .forbidden
  else .challenge challenge

/-- Outcome of one `axios.post` attempt inside `sendMessage`
(src/services/instagramService.js): a resolved response carrying the new
message id, a connectivity-class failure (`!error.response`, `ECONNABORTED`,
`ETIMEDOUT` — carrying `error.message`), or a response-received failure with
its HTTP status and resolved error message. -/
inductive AttemptResult where
  | success (messageId : Option String)
  | networkError (message : String)
  | httpError (status : Nat) (message : String)
deriving Repr, DecidableEq

/-- The `{success, messageId?, error?}` outcome object `sendMessage` returns. -/
structure SendResult where
  success : Bool
  messageId : Option String := none
  error : Option String := none
deriving Repr, DecidableEq

/-- `maxRetries` in `sendMessage`. -/
def maxRetries : Nat := 1

/-- The `while (attempt <= maxRetries)` loop of `sendMessage`, instrumented
with the number of attempts performed. `attempts n` is the outcome of the
`axios.post` call on attempt index `n`; `fuel` counts the loop iterations still
permitted by the guard (`maxRetries + 1 - attempt`), and fuel exhaustion is the
code's unreachable fall-through `return` after the loop. On a connectivity
failure with retry budget left the loop continues; every other failure returns
the failure outcome at once. -/
def sendMessageLoop (attempts : Nat → AttemptResult) :
    Nat → Nat → SendResult × Nat
  | attempt, 0 => ({ success := false, error := some "Max retries exceeded" }, attempt)
  | attempt, fuel + 1 =>
    match attempts attempt with
    | .success mid => ({ success := true, messageId := mid }, attempt + 1)
    | .networkError msg =>
      if attempt < maxRetries then
        sendMessageLoop attempts (attempt + 1) fuel
      else
        ({ success := false, error := some msg }, attempt + 1)
    | .httpError _ msg => ({ success := false, error := some msg }, attempt + 1)

/-- `sendMessage(recipientId, messageText)` from
src/services/instagramService.js, abstracted over the behaviour of the
underlying HTTP call, paired with the number of attempts actually made. -/
def sendMessageRun (recipientId messageText : String)
    (attempts : Nat → AttemptResult) : SendResult × Nat :=
  let _ := recipientId
  let _ := messageText
  sendMessageLoop attempts 0 (maxRetries + 1)

/-- The outcome value `sendMessage` hands its caller. -/
def sendMessage (recipientId messageText : String)
    (attempts : Nat → AttemptResult) : SendResult :=
  (sendMessageRun recipientId messageText attempts).1

/-- The ways one run of `processWebhookEvent` (src/routes/webhook.js) can end.
`invalidPayload` is the early return after a failed parse, `filtered` the early
return after the eligibility filter, `sendSucceeded`/`sendFailed` the two
logged delivery outcomes, and `caughtError` the top-level `catch` block, which
logs the error together with the `messageId`/`senderId` context values. -/
inductive ProcessOutcome where
  | invalidPayload
  | filtered
  | sendSucceeded (messageId : Option String)
  | sendFailed (error : Option String)
  | caughtError (error : String) (messageId senderId : JValue)

/-- The `try` body of `processWebhookEvent`, abstracted over the behaviour of
its three fallible collaborators: `parse` (the parser require + call), `gen`
(`generateResponse`, taking the message text), and `send` (`sendMessage`,
taking the recipient id and the generated text). `Except.error` is an exception
propagating out of a step. -/
def processWebhookBody
    (parse : JValue → Except String (Option ParsedMessage))
    (gen : JValue → Except String String)
    (send : JValue → String → Except String SendResult)
    (payload : JValue) (botInstagramId : String) : Except String ProcessOutcome :=
  match parse payload with
  | .error e => .error e
  | .ok none => .ok .invalidPayload
  | .ok (some pm) =>
    if !shouldReplyToMessage (some pm) botInstagramId then
      .ok .filtered
    else
      match gen pm.messageText with
      | .error e => .error e
      | .ok aiResponse =>
        match send pm.senderId aiResponse with
        | .error e => .error e
        | .ok result =>
          if result.success then
            .ok (.sendSucceeded result.messageId)
          else
            .ok (.sendFailed result.error)

/-- The `messageId`/`senderId` context locals of `processWebhookEvent`: they
start as `'unknown'` and are overwritten exactly when the parse step returns a
message. -/
def processContext (parse : JValue → Except String (Option ParsedMessage))
    (payload : JValue) : JValue × JValue :=
  match parse payload with
  | .ok (some pm) => (pm.messageId, pm.senderId)
  | _ => (.str "unknown", .str "unknown")

/-- `processWebhookEvent(payload)` from src/routes/webhook.js: the `try` body
wrapped in the top-level `catch`, which logs the error with the context locals
and deliberately does not rethrow. An `Except.error` result would be an
exception escaping into the caller's execution context. -/
def processWebhookEvent
    (parse : JValue → Except String (Option ParsedMessage))
    (gen : JValue → Except String String)
    (send : JValue → String → Except String SendResult)
    (payload : JValue) (botInstagramId : String) : Except String ProcessOutcome :=
  match processWebhookBody parse gen send payload botInstagramId with
  | .ok outcome => .ok outcome
  | .error e =>
    let ids := processContext parse payload
    .ok (.caughtError e ids.1 ids.2)

section Helpers

/-- A value with a non-`null` property is an object, hence truthy. -/
theorem JValue.truthy_of_get_ne_null {v : JValue} {k : String}
    (h : v.get k ≠ .null) : v.truthy = true := by
  cases v <;> simp [JValue.get, JValue.truthy] at h ⊢

/-- A truthy value is not the absent-marker. -/
theorem JValue.ne_null_of_truthy {v : JValue} (h : v.truthy = true) :
    v ≠ .null := by
  cases v <;> simp [JValue.truthy] at h ⊢

/-- `eqStr` decides equality with a string value. -/
theorem JValue.eqStr_eq_true_iff {v : JValue} {s : String} :
    v.eqStr s = true ↔ v = .str s := by
  cases v <;> simp [JValue.eqStr]

/-- `isNull` decides equality with the absent-marker. -/
theorem JValue.isNull_eq_true_iff {v : JValue} :
    v.isNull = true ↔ v = .null := by
  cases v <;> simp [JValue.isNull]

end Helpers

/-- C1: `shouldReplyToMessage(parsedMessage, selfId)` returns true iff the
parse is not the invalid marker, `messageText` is not the absent marker,
`hasAttachments` is false, and `senderId` differs from the self id; moreover
the four rejection rules are evaluated in the fixed order
invalid → no-text → attachments → echo with short-circuit on the first failing
rule (`shouldReplyReason`, the code's per-branch diagnostic log, is the first
rule of `rejectOrder` that fails, and the boolean is exactly "no rule fails"). -/
theorem shouldReply_iff_and_fixed_order (pm? : Option ParsedMessage) (selfId : String) :
    (shouldReplyToMessage pm? selfId = true ↔
      ∃ pm, pm? = some pm ∧ pm.messageText ≠ JValue.null ∧
        pm.hasAttachments = false ∧ pm.senderId ≠ JValue.str selfId) ∧
    shouldReplyReason pm? selfId = rejectOrder.find? (fun r => ruleFails r pm? selfId) ∧
    shouldReplyToMessage pm? selfId = (shouldReplyReason pm? selfId).isNone := by
  cases pm? with
  | none => simp [shouldReplyToMessage, shouldReplyReason, rejectOrder, ruleFails, List.find?]
  | some pm =>
    refine ⟨?_, ?_, ?_⟩
    · by_cases h1 : pm.messageText.isNull
      · simp [shouldReplyToMessage, h1, JValue.isNull_eq_true_iff.mp h1, JValue.isNull]
      · by_cases h2 : pm.hasAttachments
        · simp [shouldReplyToMessage, h1, h2]
        · by_cases h3 : pm.senderId.eqStr selfId
          · simp [shouldReplyToMessage, h1, h2, h3, JValue.eqStr_eq_true_iff.mp h3,
              JValue.eqStr]
          · constructor
            · intro _
              refine ⟨pm, rfl, ?_, by simpa using h2, ?_⟩
              · intro hnull
                exact h1 (by simp [hnull, JValue.isNull])
              · intro hstr
                exact h3 (by simp [hstr, JValue.eqStr])
            · intro _
              simp [shouldReplyToMessage, h1, h2, h3]
    · by_cases h1 : pm.messageText.isNull <;>
        by_cases h2 : pm.hasAttachments <;>
          by_cases h3 : pm.senderId.eqStr selfId <;>
            simp [shouldReplyReason, rejectOrder, ruleFails, List.find?, h1, h2, h3]
    · by_cases h1 : pm.messageText.isNull <;>
        by_cases h2 : pm.hasAttachments <;>
          by_cases h3 : pm.senderId.eqStr selfId <;>
            simp [shouldReplyToMessage, shouldReplyReason, h1, h2, h3]

/-- C2: the orchestrator never lets an exception escape: whatever the parser,
generator and delivery client do (including failing with any exception at any
step), `processWebhookEvent` resolves to a plain outcome (`Except.ok`), the
top-level `catch` having converted every escaping exception into a logged,
swallowed failure. -/
theorem processWebhookEvent_never_escapes
    (parse : JValue → Except String (Option ParsedMessage))
    (gen : JValue → Except String String)
    (send : JValue → String → Except String SendResult)
    (payload : JValue) (botInstagramId : String) :
    ∃ outcome, processWebhookEvent parse gen send payload botInstagramId =
      Except.ok outcome := by
  unfold processWebhookEvent
  cases processWebhookBody parse gen send payload botInstagramId <;> exact ⟨_, rfl⟩

/-- C5: when the event parses and passes the filter but the generator fails,
processing stops at the top-level catch, which logs the error with the
`messageId`/`senderId` context, and the outcome is the same for every delivery
client — the delivery step is never invoked. -/
theorem generator_failure_stops_without_delivery
    (parse : JValue → Except String (Option ParsedMessage))
    (gen : JValue → Except String String)
    (send : JValue → String → Except String SendResult)
    (payload : JValue) (botInstagramId : String) (pm : ParsedMessage) (e : String)
    (hparse : parse payload = Except.ok (some pm))
    (hfilter : shouldReplyToMessage (some pm) botInstagramId = true)
    (hgen : gen pm.messageText = Except.error e) :
    processWebhookEvent parse gen send payload botInstagramId =
      Except.ok (.caughtError e pm.messageId pm.senderId) := by
  simp [processWebhookEvent, processWebhookBody, processContext, hparse, hfilter, hgen]

/-- Witness for `generator_failure_stops_without_delivery` at a concrete
parser, generator, delivery client and message. -/
theorem generator_failure_stops_without_delivery_witness :
    processWebhookEvent (fun _ => Except.ok (some
        { senderId := .str "U1", messageText := .str "hi",
          hasAttachments := false, timestamp := .num 3, messageId := .str "M1" }))
      (fun _ => Except.error "generator down")
      (fun _ _ => Except.ok { success := true, messageId := some "X" })
      JValue.null "BOT" =
      Except.ok (.caughtError "generator down" (.str "M1") (.str "U1")) :=
  generator_failure_stops_without_delivery
    (fun _ => Except.ok (some
      { senderId := .str "U1", messageText := .str "hi",
        hasAttachments := false, timestamp := .num 3, messageId := .str "M1" }))
    (fun _ => Except.error "generator down")
    (fun _ _ => Except.ok { success := true, messageId := some "X" })
    JValue.null "BOT"
    { senderId := .str "U1", messageText := .str "hi",
      hasAttachments := false, timestamp := .num 3, messageId := .str "M1" }
    "generator down" rfl rfl rfl

/-- C4: the delivery client's retry policy: two connectivity-class failures
mean exactly two attempts and a failure outcome; a client-error (4xx) response
on the first attempt means exactly one attempt and a failure outcome with no
retry. In both cases the caller receives the outcome value (no exception). -/
theorem sendMessage_retry_policy (recipientId messageText : String)
    (attempts : Nat → AttemptResult) :
    (∀ m0 m1, attempts 0 = .networkError m0 → attempts 1 = .networkError m1 →
       sendMessage recipientId messageText attempts =
         { success := false, error := some m1 } ∧
       (sendMessageRun recipientId messageText attempts).2 = 2) ∧
    (∀ status msg, 400 ≤ status → status < 500 → attempts 0 = .httpError status msg →
       sendMessage recipientId messageText attempts =
         { success := false, error := some msg } ∧
       (sendMessageRun recipientId messageText attempts).2 = 1) := by
  constructor
  · intro m0 m1 h0 h1
    constructor <;>
      simp [sendMessage, sendMessageRun, sendMessageLoop, maxRetries, h0, h1]
  · intro status msg _ _ h0
    constructor <;>
      simp [sendMessage, sendMessageRun, sendMessageLoop, maxRetries, h0]

/-- Witness for `sendMessage_retry_policy`: both scenarios at concrete attempt
behaviours. -/
theorem sendMessage_retry_policy_witness :
    (sendMessage "U1" "hey" (fun _ => .networkError "timeout") =
       { success := false, error := some "timeout" } ∧
     (sendMessageRun "U1" "hey" (fun _ => .networkError "timeout")).2 = 2) ∧
    (sendMessage "U1" "hey" (fun _ => .httpError 400 "bad recipient") =
       { success := false, error := some "bad recipient" } ∧
     (sendMessageRun "U1" "hey" (fun _ => .httpError 400 "bad recipient")).2 = 1) :=
  ⟨(sendMessage_retry_policy "U1" "hey" (fun _ => .networkError "timeout")).1
      "timeout" "timeout" rfl rfl,
   (sendMessage_retry_policy "U1" "hey" (fun _ => .httpError 400 "bad recipient")).2
      400 "bad recipient" (by decide) (by decide) rfl⟩

/-- `secureCompare` on two present strings decides exact equality: the padded
sequences agree and the lengths agree exactly when the strings are equal. -/
theorem secureCompare_eq_true_iff (a b : String) :
    secureCompare (some a) (some b) = true ↔ a = b := by
  simp only [secureCompare, Bool.and_eq_true, beq_iff_eq]
  constructor
  · rintro ⟨hpad, hlen⟩
    have hdata : a.data = b.data := by
      have := List.append_inj hpad hlen
      exact this.1
    cases a; cases b
    exact congrArg String.mk hdata
  · rintro rfl
    exact ⟨rfl, rfl⟩

/-- An absent token (or an absent configured secret) never passes
`secureCompare`: the `typeof` guard rejects it. -/
theorem secureCompare_none_left (b : Option String) :
    secureCompare none b = false := rfl

/-- C9: `handleVerification` responds 200 with the supplied challenge exactly
when the mode is the literal `subscribe` and the supplied token is a present
string equal to the configured secret (length mismatches, differing tokens and
absent tokens all land in the 403 branch). -/
theorem handleVerification_challenge_iff
    (mode token challenge : Option String) (secret : String) :
    handleVerification mode token challenge (some secret) =
      (if mode = some "subscribe" ∧ token = some secret
       then .challenge challenge else .forbidden) := by
  by_cases hm : mode = some "subscribe"
  · subst hm
    cases token with
    | none =>
      simp [handleVerification, secureCompare]
    | some t =>
      by_cases ht : t = secret
      · subst ht
        simp [handleVerification, (secureCompare_eq_true_iff t t).mpr rfl]
      · have hsc : secureCompare (some t) (some secret) = false := by
          cases h : secureCompare (some t) (some secret)
          · rfl
          · exact absurd ((secureCompare_eq_true_iff t secret).mp h) ht
        simp [handleVerification, hsc, ht]
  · have hne : (mode != some "subscribe") = true := by
      cases mode with
      | none => rfl
      | some m =>
        simp only [bne_iff_ne, ne_eq, Option.some.injEq]
        intro h
        exact hm (by simp [h])
    simp [handleVerification, hne, hm]


@[simp] theorem JValue.truthy_null : JValue.null.truthy = false := rfl
@[simp] theorem JValue.truthy_arr (xs : List JValue) : (JValue.arr xs).truthy = true := rfl
@[simp] theorem JValue.truthy_obj (fs : List (String × JValue)) :
    (JValue.obj fs).truthy = true := rfl
@[simp] theorem JValue.isArray_arr (xs : List JValue) : (JValue.arr xs).isArray = true := rfl
@[simp] theorem JValue.isArray_null : JValue.null.isArray = false := rfl
@[simp] theorem JValue.items_arr (xs : List JValue) : (JValue.arr xs).items = xs := rfl
@[simp] theorem JValue.eqStr_str (t s : String) : (JValue.str t).eqStr s = (t == s) := rfl
@[simp] theorem JValue.eqStr_null (s : String) : JValue.null.eqStr s = false := rfl

/-- Shape-A extraction: an envelope whose first entry has a messaging list
whose first event carries a truthy `message` resolves to that message together
with the event's sender id and timestamp. -/
theorem extractEvent_shapeA {payload entry ev msg : JValue}
    {restEntries restEvents : List JValue}
    (hentry : payload.get "entry" = .arr (entry :: restEntries))
    (hmsging : entry.get "messaging" = .arr (ev :: restEvents))
    (hmsg : ev.get "message" = msg) (htruthy : msg.truthy = true) :
    extractEvent payload =
      some (msg, (ev.get "sender").get "id", ev.get "timestamp") := by
  have hp : payload.truthy = true :=
    JValue.truthy_of_get_ne_null (v := payload) (k := "entry") (by simp [hentry])
  rw [extractEvent, hentry]
  simp [hp, hmsging, hmsg, htruthy]

/-- Shape-A edited-message extraction: when the first messaging event has no
truthy `message` but a truthy `message_edit`, the parser synthesizes a message
view from the edit's `mid`, `text` and `attachments`. -/
theorem extractEvent_shapeA_edit {payload entry ev me : JValue}
    {restEntries restEvents : List JValue}
    (hentry : payload.get "entry" = .arr (entry :: restEntries))
    (hmsging : entry.get "messaging" = .arr (ev :: restEvents))
    (hnomsg : (ev.get "message").truthy = false)
    (hedit : ev.get "message_edit" = me) (htruthy : me.truthy = true) :
    extractEvent payload =
      some (.obj [("mid", me.get "mid"), ("text", me.get "text"),
                  ("attachments", me.get "attachments")],
            (ev.get "sender").get "id", ev.get "timestamp") := by
  have hp : payload.truthy = true :=
    JValue.truthy_of_get_ne_null (v := payload) (k := "entry") (by simp [hentry])
  rw [extractEvent, hentry]
  simp [hp, hmsging, hnomsg, hedit, htruthy]

/-- Shape-B extraction: an envelope whose first entry has no messaging list but
a change list whose first change has field `messages` and a truthy value
resolves to the value's message, sender id and parsed timestamp. -/
theorem extractEvent_shapeB {payload entry change value : JValue}
    {restEntries restChanges : List JValue}
    (hentry : payload.get "entry" = .arr (entry :: restEntries))
    (hnomsging : entry.get "messaging" = .null)
    (hchanges : entry.get "changes" = .arr (change :: restChanges))
    (hfield : change.get "field" = .str "messages")
    (hvalue : change.get "value" = value) (htruthy : value.truthy = true) :
    extractEvent payload =
      some (value.get "message", (value.get "sender").get "id",
            if (value.get "timestamp").truthy
            then JValue.jsParseInt (value.get "timestamp") else .null) := by
  have hp : payload.truthy = true :=
    JValue.truthy_of_get_ne_null (v := payload) (k := "entry") (by simp [hentry])
  rw [extractEvent, hentry]
  simp [hp, hnomsging, hchanges, hfield, hvalue, htruthy]

/-- Successful validation: truthy sender, message and message id yield the
fully-populated record. -/
theorem finishParse_ok {message senderId : JValue} (timestamp : JValue)
    (hs : senderId.truthy = true) (hm : message.truthy = true)
    (hmid : (message.get "mid").truthy = true) :
    finishParse message senderId timestamp =
      some {
        senderId := senderId
        messageText := if (message.get "text").truthy then message.get "text" else .null
        hasAttachments := (message.get "attachments").isArray
          && decide (0 < (message.get "attachments").items.length)
        timestamp := timestamp
        messageId := message.get "mid" } := by
  simp [finishParse, hs, hm, hmid]

/-- C6: the parser is total and preserves the record invariant: every payload
(well-formed or not) yields either the invalid marker or a record whose sender
id and message id are both present and non-empty (truthy — in particular never
the absent-marker); no partially-valid record is ever produced. Totality — the
parser resolving without raising on every input — is `parseWebhookEvent` being
a total function into `Option ParsedMessage`. -/
theorem parseWebhookEvent_total_and_invariant (payload : JValue) :
    parseWebhookEvent payload = none ∨
      ∃ pm, parseWebhookEvent payload = some pm ∧
        pm.senderId.truthy = true ∧ pm.messageId.truthy = true ∧
        pm.senderId ≠ JValue.null ∧ pm.messageId ≠ JValue.null := by
  unfold parseWebhookEvent
  cases hex : extractEvent payload with
  | none => exact Or.inl rfl
  | some triple =>
    obtain ⟨message, senderId, timestamp⟩ := triple
    dsimp only
    by_cases hs : senderId.truthy
    · by_cases hm : message.truthy
      · by_cases hmid : (message.get "mid").truthy
        · rw [finishParse_ok timestamp hs hm hmid]
          exact Or.inr ⟨_, rfl, hs, hmid,
            JValue.ne_null_of_truthy hs, JValue.ne_null_of_truthy hmid⟩
        · exact Or.inl (by simp [finishParse, hs, hm, hmid])
      · exact Or.inl (by simp [finishParse, hs, hm])
    · exact Or.inl (by simp [finishParse, hs])

@[simp] theorem JValue.truthy_str (s : String) :
    (JValue.str s).truthy = !(s == "") := rfl

/-- C3: for every envelope in either supported shape whose first entry carries
a non-empty sender id, message id and text, the parser returns a record whose
`senderId`, `messageId` and `messageText` are exactly the carried values, with
no trimming or alteration of the text. -/
theorem parseWebhookEvent_exact_extraction :
    (∀ (payload entry ev msg : JValue) (restEntries restEvents : List JValue)
       (sid mid txt : String),
       payload.get "entry" = .arr (entry :: restEntries) →
       entry.get "messaging" = .arr (ev :: restEvents) →
       ev.get "message" = msg →
       (ev.get "sender").get "id" = .str sid →
       msg.get "mid" = .str mid →
       msg.get "text" = .str txt →
       sid ≠ "" → mid ≠ "" → txt ≠ "" →
       ∃ pm, parseWebhookEvent payload = some pm ∧
         pm.senderId = .str sid ∧ pm.messageId = .str mid ∧
         pm.messageText = .str txt) ∧
    (∀ (payload entry change value msg : JValue)
       (restEntries restChanges : List JValue) (sid mid txt : String),
       payload.get "entry" = .arr (entry :: restEntries) →
       entry.get "messaging" = .null →
       entry.get "changes" = .arr (change :: restChanges) →
       change.get "field" = .str "messages" →
       change.get "value" = value →
       value.get "message" = msg →
       (value.get "sender").get "id" = .str sid →
       msg.get "mid" = .str mid →
       msg.get "text" = .str txt →
       sid ≠ "" → mid ≠ "" → txt ≠ "" →
       ∃ pm, parseWebhookEvent payload = some pm ∧
         pm.senderId = .str sid ∧ pm.messageId = .str mid ∧
         pm.messageText = .str txt) := by
  constructor
  · intro payload entry ev msg restEntries restEvents sid mid txt
      hentry hmsging hmsg hsender hmid htxt hsid hmidne htxtne
    have hmt : msg.truthy = true :=
      JValue.truthy_of_get_ne_null (v := msg) (k := "mid") (by simp [hmid])
    have hst : ((ev.get "sender").get "id").truthy = true := by
      simp [hsender, hsid]
    have hmidt : (msg.get "mid").truthy = true := by
      simp [hmid, hmidne]
    rw [parseWebhookEvent, extractEvent_shapeA hentry hmsging hmsg hmt]
    dsimp only
    rw [finishParse_ok (ev.get "timestamp") hst hmt hmidt]
    exact ⟨_, rfl, hsender, hmid, by simp [htxt, htxtne]⟩
  · intro payload entry change value msg restEntries restChanges sid mid txt
      hentry hnomsging hchanges hfield hvalue hmsg hsender hmid htxt hsid hmidne htxtne
    have hmt : msg.truthy = true :=
      JValue.truthy_of_get_ne_null (v := msg) (k := "mid") (by simp [hmid])
    have hvt : value.truthy = true :=
      JValue.truthy_of_get_ne_null (v := value) (k := "message")
        (by simp [hmsg]; exact JValue.ne_null_of_truthy hmt)
    have hst : ((value.get "sender").get "id").truthy = true := by
      simp [hsender, hsid]
    have hmidt : (msg.get "mid").truthy = true := by
      simp [hmid, hmidne]
    rw [parseWebhookEvent,
      extractEvent_shapeB hentry hnomsging hchanges hfield hvalue hvt]
    dsimp only
    rw [hmsg, finishParse_ok _ hst hmt hmidt]
    exact ⟨_, rfl, hsender, hmid, by simp [htxt, htxtne]⟩

/-- Concrete shape-A message object for the extraction witness. -/
def witnessMsgA : JValue := .obj [("mid", .str "MSG_789"), ("text", .str "Hello")]

/-- Concrete shape-A messaging event for the extraction witness. -/
def witnessEvA : JValue :=
  .obj [("sender", .obj [("id", .str "SENDER_123")]),
        ("timestamp", .num 1234567890), ("message", witnessMsgA)]

/-- Concrete shape-A entry for the extraction witness. -/
def witnessEntryA : JValue := .obj [("messaging", .arr [witnessEvA])]

/-- Concrete shape-A envelope for the extraction witness. -/
def witnessEnvelopeA : JValue := .obj [("entry", .arr [witnessEntryA])]

/-- Concrete shape-B message object for the extraction witness. -/
def witnessMsgB : JValue := .obj [("mid", .str "M2"), ("text", .str "yo")]

/-- Concrete shape-B change value for the extraction witness. -/
def witnessValueB : JValue :=
  .obj [("sender", .obj [("id", .str "S2")]),
        ("timestamp", .num 1700000000), ("message", witnessMsgB)]

/-- Concrete shape-B change for the extraction witness. -/
def witnessChangeB : JValue :=
  .obj [("field", .str "messages"), ("value", witnessValueB)]

/-- Concrete shape-B entry for the extraction witness. -/
def witnessEntryB : JValue := .obj [("changes", .arr [witnessChangeB])]

/-- Concrete shape-B envelope for the extraction witness. -/
def witnessEnvelopeB : JValue := .obj [("entry", .arr [witnessEntryB])]

/-- Witness for `parseWebhookEvent_exact_extraction`: one concrete envelope of
each shape. -/
theorem parseWebhookEvent_exact_extraction_witness :
    (∃ pm, parseWebhookEvent witnessEnvelopeA = some pm ∧
       pm.senderId = .str "SENDER_123" ∧ pm.messageId = .str "MSG_789" ∧
       pm.messageText = .str "Hello") ∧
    (∃ pm, parseWebhookEvent witnessEnvelopeB = some pm ∧
       pm.senderId = .str "S2" ∧ pm.messageId = .str "M2" ∧
       pm.messageText = .str "yo") :=
  ⟨parseWebhookEvent_exact_extraction.1 witnessEnvelopeA witnessEntryA witnessEvA
      witnessMsgA [] [] "SENDER_123" "MSG_789" "Hello"
      rfl rfl rfl rfl rfl rfl (by decide) (by decide) (by decide),
   parseWebhookEvent_exact_extraction.2 witnessEnvelopeB witnessEntryB witnessChangeB
      witnessValueB witnessMsgB [] [] "S2" "M2" "yo"
      rfl rfl rfl rfl rfl rfl rfl rfl rfl (by decide) (by decide) (by decide)⟩

/-- C7: an envelope in the older shape whose messaging event has a non-empty
sender id and a message with a non-empty id but no timestamp field still
parses to a valid record with `timestamp` absent — only the sender identifier
and message identifier are required. -/
theorem parseWebhookEvent_timestamp_not_required
    (payload entry ev msg : JValue) (restEntries restEvents : List JValue)
    (sid mid : String)
    (hentry : payload.get "entry" = .arr (entry :: restEntries))
    (hmsging : entry.get "messaging" = .arr (ev :: restEvents))
    (hmsg : ev.get "message" = msg)
    (hsender : (ev.get "sender").get "id" = .str sid)
    (hmid : msg.get "mid" = .str mid)
    (hts : ev.get "timestamp" = .null)
    (hsid : sid ≠ "") (hmidne : mid ≠ "") :
    ∃ pm, parseWebhookEvent payload = some pm ∧ pm.timestamp = JValue.null ∧
      pm.senderId = .str sid ∧ pm.messageId = .str mid := by
  have hmt : msg.truthy = true :=
    JValue.truthy_of_get_ne_null (v := msg) (k := "mid") (by simp [hmid])
  have hst : ((ev.get "sender").get "id").truthy = true := by
    simp [hsender, hsid]
  have hmidt : (msg.get "mid").truthy = true := by
    simp [hmid, hmidne]
  rw [parseWebhookEvent, extractEvent_shapeA hentry hmsging hmsg hmt]
  dsimp only
  rw [finishParse_ok (ev.get "timestamp") hst hmt hmidt]
  exact ⟨_, rfl, hts, hsender, hmid⟩

/-- Concrete timestamp-free messaging event for the C7 witness. -/
def witnessEvNoTs : JValue :=
  .obj [("sender", .obj [("id", .str "S4")]),
        ("message", .obj [("mid", .str "M4"), ("text", .str "hi")])]

/-- Concrete timestamp-free entry for the C7 witness. -/
def witnessEntryNoTs : JValue := .obj [("messaging", .arr [witnessEvNoTs])]

/-- Concrete timestamp-free envelope for the C7 witness. -/
def witnessEnvelopeNoTs : JValue := .obj [("entry", .arr [witnessEntryNoTs])]

/-- Witness for `parseWebhookEvent_timestamp_not_required` at a concrete
envelope with no timestamp field. -/
theorem parseWebhookEvent_timestamp_not_required_witness :
    ∃ pm, parseWebhookEvent witnessEnvelopeNoTs = some pm ∧
      pm.timestamp = JValue.null ∧
      pm.senderId = .str "S4" ∧ pm.messageId = .str "M4" :=
  parseWebhookEvent_timestamp_not_required witnessEnvelopeNoTs witnessEntryNoTs
    witnessEvNoTs (.obj [("mid", .str "M4"), ("text", .str "hi")]) [] [] "S4" "M4"
    rfl rfl rfl rfl rfl rfl (by decide) (by decide)

/-- C8: an older-shape envelope whose first messaging event carries a
`message_edit` sub-object is parsed exactly like the envelope carrying an
equivalent `message` sub-object (same `mid`, `text`, `attachments`, sender and
timestamp), and with non-empty sender id, edit message id and edited text it
yields a valid record whose `messageText` is the edited text. -/
theorem parseWebhookEvent_message_edit_equiv :
    (∀ (p1 entry1 ev1 me p2 entry2 ev2 msg2 : JValue)
       (r1 rm1 r2 rm2 : List JValue),
       p1.get "entry" = .arr (entry1 :: r1) →
       entry1.get "messaging" = .arr (ev1 :: rm1) →
       ev1.get "message" = .null →
       ev1.get "message_edit" = me → me.truthy = true →
       p2.get "entry" = .arr (entry2 :: r2) →
       entry2.get "messaging" = .arr (ev2 :: rm2) →
       ev2.get "message" = msg2 → msg2.truthy = true →
       msg2.get "mid" = me.get "mid" →
       msg2.get "text" = me.get "text" →
       msg2.get "attachments" = me.get "attachments" →
       (ev2.get "sender").get "id" = (ev1.get "sender").get "id" →
       ev2.get "timestamp" = ev1.get "timestamp" →
       parseWebhookEvent p1 = parseWebhookEvent p2) ∧
    (∀ (payload entry ev me : JValue) (restEntries restEvents : List JValue)
       (sid mid txt : String),
       payload.get "entry" = .arr (entry :: restEntries) →
       entry.get "messaging" = .arr (ev :: restEvents) →
       ev.get "message" = .null →
       ev.get "message_edit" = me →
       (ev.get "sender").get "id" = .str sid →
       me.get "mid" = .str mid →
       me.get "text" = .str txt →
       sid ≠ "" → mid ≠ "" → txt ≠ "" →
       ∃ pm, parseWebhookEvent payload = some pm ∧
         pm.senderId = .str sid ∧ pm.messageId = .str mid ∧
         pm.messageText = .str txt) := by
  constructor
  · intro p1 entry1 ev1 me p2 entry2 ev2 msg2 r1 rm1 r2 rm2
      hentry1 hmsging1 hmsg1 hedit hmet hentry2 hmsging2 hmsg2 hmsg2t
      hmid2 htxt2 hatt2 hsender2 hts2
    have hnomsg : (ev1.get "message").truthy = false := by simp [hmsg1]
    simp only [parseWebhookEvent]
    rw [extractEvent_shapeA_edit hentry1 hmsging1 hnomsg hedit hmet,
      extractEvent_shapeA hentry2 hmsging2 hmsg2 hmsg2t]
    dsimp only
    rw [hsender2, hts2]
    have e1 : (JValue.obj [("mid", me.get "mid"), ("text", me.get "text"),
        ("attachments", me.get "attachments")]).get "mid" = me.get "mid" := rfl
    have e2 : (JValue.obj [("mid", me.get "mid"), ("text", me.get "text"),
        ("attachments", me.get "attachments")]).get "text" = me.get "text" := rfl
    have e3 : (JValue.obj [("mid", me.get "mid"), ("text", me.get "text"),
        ("attachments", me.get "attachments")]).get "attachments" =
        me.get "attachments" := rfl
    simp only [finishParse, e1, e2, e3, hmid2, htxt2, hatt2, hmsg2t,
      JValue.truthy_obj]
  · intro payload entry ev me restEntries restEvents sid mid txt
      hentry hmsging hmsg hedit hsender hmid htxt hsid hmidne htxtne
    have hnomsg : (ev.get "message").truthy = false := by simp [hmsg]
    have hmet : me.truthy = true :=
      JValue.truthy_of_get_ne_null (v := me) (k := "mid") (by simp [hmid])
    have hst : ((ev.get "sender").get "id").truthy = true := by
      simp [hsender, hsid]
    rw [parseWebhookEvent, extractEvent_shapeA_edit hentry hmsging hnomsg hedit hmet]
    dsimp only
    have e1 : (JValue.obj [("mid", me.get "mid"), ("text", me.get "text"),
        ("attachments", me.get "attachments")]).get "mid" = me.get "mid" := rfl
    have e2 : (JValue.obj [("mid", me.get "mid"), ("text", me.get "text"),
        ("attachments", me.get "attachments")]).get "text" = me.get "text" := rfl
    have hmidt : ((JValue.obj [("mid", me.get "mid"), ("text", me.get "text"),
        ("attachments", me.get "attachments")]).get "mid").truthy = true := by
      rw [e1]; simp [hmid, hmidne]
    rw [finishParse_ok (ev.get "timestamp") hst (by simp) hmidt]
    refine ⟨_, rfl, hsender, ?_, ?_⟩
    · rw [e1, hmid]
    · rw [e2, htxt]
      simp [htxtne]

/-- Concrete edited-message event for the C8 witness. -/
def witnessEvEdit : JValue :=
  .obj [("sender", .obj [("id", .str "S3")]), ("timestamp", .num 5),
        ("message_edit", .obj [("mid", .str "M3"), ("text", .str "edited")])]

/-- Concrete edited-message envelope for the C8 witness. -/
def witnessEnvelopeEdit : JValue :=
  .obj [("entry", .arr [.obj [("messaging", .arr [witnessEvEdit])]])]

/-- Concrete plain-message event equivalent to `witnessEvEdit`. -/
def witnessEvPlain : JValue :=
  .obj [("sender", .obj [("id", .str "S3")]), ("timestamp", .num 5),
        ("message", .obj [("mid", .str "M3"), ("text", .str "edited")])]

/-- Concrete plain-message envelope equivalent to `witnessEnvelopeEdit`. -/
def witnessEnvelopePlain : JValue :=
  .obj [("entry", .arr [.obj [("messaging", .arr [witnessEvPlain])]])]

/-- Witness for `parseWebhookEvent_message_edit_equiv`: a concrete edited
message parses identically to the equivalent plain message and carries the
edited text. -/
theorem parseWebhookEvent_message_edit_equiv_witness :
    parseWebhookEvent witnessEnvelopeEdit = parseWebhookEvent witnessEnvelopePlain ∧
    (∃ pm, parseWebhookEvent witnessEnvelopeEdit = some pm ∧
       pm.senderId = .str "S3" ∧ pm.messageId = .str "M3" ∧
       pm.messageText = .str "edited") :=
  ⟨parseWebhookEvent_message_edit_equiv.1 witnessEnvelopeEdit
      (.obj [("messaging", .arr [witnessEvEdit])]) witnessEvEdit
      (.obj [("mid", .str "M3"), ("text", .str "edited")])
      witnessEnvelopePlain (.obj [("messaging", .arr [witnessEvPlain])])
      witnessEvPlain (.obj [("mid", .str "M3"), ("text", .str "edited")])
      [] [] [] [] rfl rfl rfl rfl rfl rfl rfl rfl rfl rfl rfl rfl rfl rfl,
   parseWebhookEvent_message_edit_equiv.2 witnessEnvelopeEdit
      (.obj [("messaging", .arr [witnessEvEdit])]) witnessEvEdit
      (.obj [("mid", .str "M3"), ("text", .str "edited")]) [] [] "S3" "M3" "edited"
      rfl rfl rfl rfl rfl rfl rfl (by decide) (by decide) (by decide)⟩

/-- C10: an envelope (in either shape) that parses successfully while its
message carries a text field equal to the empty string yields `messageText`
as the absent-marker — empty text is conflated with no text — and the message
is then rejected by `shouldReplyToMessage` on the text-presence rule. -/
theorem parseWebhookEvent_empty_text_rejected :
    (∀ (payload entry ev msg : JValue) (restEntries restEvents : List JValue)
       (pm : ParsedMessage) (selfId : String),
       payload.get "entry" = .arr (entry :: restEntries) →
       entry.get "messaging" = .arr (ev :: restEvents) →
       ev.get "message" = msg →
       msg.get "text" = .str "" →
       parseWebhookEvent payload = some pm →
       pm.messageText = JValue.null ∧
       shouldReplyToMessage (some pm) selfId = false ∧
       shouldReplyReason (some pm) selfId = some .noText) ∧
    (∀ (payload entry change value msg : JValue)
       (restEntries restChanges : List JValue) (pm : ParsedMessage) (selfId : String),
       payload.get "entry" = .arr (entry :: restEntries) →
       entry.get "messaging" = .null →
       entry.get "changes" = .arr (change :: restChanges) →
       change.get "field" = .str "messages" →
       change.get "value" = value →
       value.get "message" = msg →
       msg.get "text" = .str "" →
       parseWebhookEvent payload = some pm →
       pm.messageText = JValue.null ∧
       shouldReplyToMessage (some pm) selfId = false ∧
       shouldReplyReason (some pm) selfId = some .noText) := by
  constructor
  · intro payload entry ev msg restEntries restEvents pm selfId
      hentry hmsging hmsg htxt hparse
    have hmt : msg.truthy = true :=
      JValue.truthy_of_get_ne_null (v := msg) (k := "text") (by simp [htxt])
    rw [parseWebhookEvent, extractEvent_shapeA hentry hmsging hmsg hmt] at hparse
    dsimp only at hparse
    rw [finishParse] at hparse
    split at hparse
    · exact absurd hparse (by simp)
    · have hpm : pm = _ := (Option.some.inj hparse).symm
      have hmtext : pm.messageText = JValue.null := by
        rw [hpm]; simp [htxt]
      exact ⟨hmtext, by simp [shouldReplyToMessage, hmtext, JValue.isNull],
        by simp [shouldReplyReason, hmtext, JValue.isNull]⟩
  · intro payload entry change value msg restEntries restChanges pm selfId
      hentry hnomsging hchanges hfield hvalue hmsg htxt hparse
    have hmt : msg.truthy = true :=
      JValue.truthy_of_get_ne_null (v := msg) (k := "text") (by simp [htxt])
    have hvt : value.truthy = true :=
      JValue.truthy_of_get_ne_null (v := value) (k := "message")
        (by simp [hmsg]; exact JValue.ne_null_of_truthy hmt)
    rw [parseWebhookEvent,
      extractEvent_shapeB hentry hnomsging hchanges hfield hvalue hvt] at hparse
    dsimp only at hparse
    rw [hmsg, finishParse] at hparse
    split at hparse
    · exact absurd hparse (by simp)
    · have hpm : pm = _ := (Option.some.inj hparse).symm
      have hmtext : pm.messageText = JValue.null := by
        rw [hpm]; simp [htxt]
      exact ⟨hmtext, by simp [shouldReplyToMessage, hmtext, JValue.isNull],
        by simp [shouldReplyReason, hmtext, JValue.isNull]⟩

/-- Concrete empty-text shape-A envelope for the C10 witness. -/
def witnessEnvelopeEmptyA : JValue :=
  .obj [("entry", .arr [.obj [("messaging", .arr [.obj [
    ("sender", .obj [("id", .str "S5")]), ("timestamp", .num 9),
    ("message", .obj [("mid", .str "M5"), ("text", .str "")])]])]])]

/-- Concrete empty-text shape-B envelope for the C10 witness. -/
def witnessEnvelopeEmptyB : JValue :=
  .obj [("entry", .arr [.obj [("changes", .arr [.obj [
    ("field", .str "messages"),
    ("value", .obj [("sender", .obj [("id", .str "S6")]), ("timestamp", .num 1),
      ("message", .obj [("mid", .str "M6"), ("text", .str "")])])]])]])]

/-- Witness for `parseWebhookEvent_empty_text_rejected`: one concrete
empty-text envelope of each shape. -/
theorem parseWebhookEvent_empty_text_rejected_witness :
    (({ senderId := .str "S5", messageText := .null, hasAttachments := false,
        timestamp := .num 9, messageId := .str "M5" } : ParsedMessage).messageText =
          JValue.null ∧
      shouldReplyToMessage (some
        { senderId := .str "S5", messageText := .null, hasAttachments := false,
          timestamp := .num 9, messageId := .str "M5" }) "BOT" = false ∧
      shouldReplyReason (some
        { senderId := .str "S5", messageText := .null, hasAttachments := false,
          timestamp := .num 9, messageId := .str "M5" }) "BOT" = some .noText) ∧
    (({ senderId := .str "S6", messageText := .null, hasAttachments := false,
        timestamp := .num 1, messageId := .str "M6" } : ParsedMessage).messageText =
          JValue.null ∧
      shouldReplyToMessage (some
        { senderId := .str "S6", messageText := .null, hasAttachments := false,
          timestamp := .num 1, messageId := .str "M6" }) "BOT" = false ∧
      shouldReplyReason (some
        { senderId := .str "S6", messageText := .null, hasAttachments := false,
          timestamp := .num 1, messageId := .str "M6" }) "BOT" = some .noText) :=
  ⟨parseWebhookEvent_empty_text_rejected.1 witnessEnvelopeEmptyA
      (.obj [("messaging", .arr [.obj [
        ("sender", .obj [("id", .str "S5")]), ("timestamp", .num 9),
        ("message", .obj [("mid", .str "M5"), ("text", .str "")])]])])
      (.obj [("sender", .obj [("id", .str "S5")]), ("timestamp", .num 9),
        ("message", .obj [("mid", .str "M5"), ("text", .str "")])])
      (.obj [("mid", .str "M5"), ("text", .str "")]) [] []
      { senderId := .str "S5", messageText := .null, hasAttachments := false,
        timestamp := .num 9, messageId := .str "M5" } "BOT"
      rfl rfl rfl rfl rfl,
   parseWebhookEvent_empty_text_rejected.2 witnessEnvelopeEmptyB
      (.obj [("changes", .arr [.obj [
        ("field", .str "messages"),
        ("value", .obj [("sender", .obj [("id", .str "S6")]), ("timestamp", .num 1),
          ("message", .obj [("mid", .str "M6"), ("text", .str "")])])]])])
      (.obj [("field", .str "messages"),
        ("value", .obj [("sender", .obj [("id", .str "S6")]), ("timestamp", .num 1),
          ("message", .obj [("mid", .str "M6"), ("text", .str "")])])])
      (.obj [("sender", .obj [("id", .str "S6")]), ("timestamp", .num 1),
        ("message", .obj [("mid", .str "M6"), ("text", .str "")])])
      (.obj [("mid", .str "M6"), ("text", .str "")]) [] []
      { senderId := .str "S6", messageText := .null, hasAttachments := false,
        timestamp := .num 1, messageId := .str "M6" } "BOT"
      rfl rfl rfl rfl rfl rfl rfl rfl⟩
